import Mathlib

/-!
Verification of the Legal-Tech backend (multi-tenant case management with an
OCR pipeline) against its natural-language specification.

The JavaScript source is shallowly embedded: MongoDB documents become Lean
structures, controller bodies become pure functions over explicit database
lists, MongoDB query filters become boolean predicates with the standard
match semantics, and mongoose lifecycle hooks (pre-save) become explicit
functions applied at each save point.  Ids are `Nat`, confidences are `Rat`
(the JS numbers here are only ever compared against the literal 0.85).
External library calls (Unicode NFC normalization, sha256) are passed in as
function parameters.
-/

namespace LegalTech

/-- Roles from `models/User.js` (`enum: ["Admin", "Lawyer"]`). -/
inductive Role where
  | Admin
  | Lawyer
deriving DecidableEq, Repr

/-- The authenticated principal attached to a request (`req.user`). -/
structure Subject where
  id : Nat
  role : Role
deriving DecidableEq, Repr

/-- Request context produced by the auth middleware: an optional org scope
(`req.orgId`) and an optional authenticated user (`req.user`). -/
structure ReqCtx where
  orgId : Option Nat
  user : Option Subject
deriving DecidableEq, Repr

/-- A case party, from `models/case.js` (`parties: [{name, role, lawyer, contactInfo}]`);
`lawyer` is an optional reference to a User. -/
structure Party where
  name : String := ""
  lawyer : Option Nat := none
deriving DecidableEq, Repr

/-- An assignment entry, from `models/case.js` (`assignedTo: [{userId, role}]`). -/
structure Assignment where
  userId : Nat
  role : String := ""
deriving DecidableEq, Repr

/-- A Case record, restricted to the fields the access policy reads
(`models/case.js`). -/
structure Kase where
  id : Nat
  orgId : Nat
  parties : List Party := []
  assignedTo : List Assignment := []
  createdBy : Option Nat := none
deriving DecidableEq, Repr

/-- Denotation (MongoDB match semantics) of the filter built by
`caseScopeFilter(req)` in `security/scope.js` / `controllers/documentController.js`:

* `orgPart` is `{orgId: req.orgId}` when `req.orgId` is set, else `{}` (matches all);
* Admin: the filter is just `orgPart`;
* no user id: the filter is `{_id: null}` (matches nothing);
* otherwise (Lawyer): `orgPart` AND
  (`assignedTo.userId == uid` OR `parties.lawyer == uid` OR `createdBy == uid`),
  where matching an array field means "some element matches". -/
def caseScopeMatches (req : ReqCtx) (c : Kase) : Bool :=
  let orgPart : Bool := match req.orgId with
    | some o => c.orgId == o
    | none => true
  match req.user with
  | some u =>
      if u.role == Role.Admin then
        orgPart
      else
        orgPart &&
          (c.assignedTo.any (fun a => a.userId == u.id) ||
           c.parties.any (fun p => p.lawyer == some u.id) ||
           c.createdBy == some u.id)
  | none => false

/-- The Lawyer relationship predicate the spec names: assigned to the case,
or a party's lawyer, or the case's creator. -/
def lawyerRelated (uid : Nat) (c : Kase) : Bool :=
  c.assignedTo.any (fun a => a.userId == uid) ||
  c.parties.any (fun p => p.lawyer == some uid) ||
  c.createdBy == some uid

/-- Request context of an authenticated subject scoped to org `o`. -/
def subjectReq (o : Nat) (s : Subject) : ReqCtx :=
  { orgId := some o, user := some s }

/-! ## OcrJob reads (`controllers/ocrController.js`: `getOcrJob`, `listOcrJobs`) -/

/-- Job statuses from the spec's OcrJob state machine
(`queued/running/completed/failed`). -/
inductive JobStatus where
  | queued
  | running
  | completed
  | failed
deriving DecidableEq, Repr

/-- An OcrJob record, restricted to the fields the controllers read and write. -/
structure OcrJob where
  id : Nat
  orgId : Option Nat := none
  documentId : Nat
  status : JobStatus := JobStatus.queued
  attempt : Nat := 1
  startedAt : Option Nat := none
  finishedAt : Option Nat := none
  errorMessage : Option String := none
  metricsPages : Option Nat := none
  metricsDurationMs : Option Nat := none
  metricsGarbageRate : Option Rat := none
deriving DecidableEq, Repr

/-- `GET /ocr/jobs/:id` (`getOcrJob`): a bare `OcrJob.findById` — the filter is
only the id; no org constraint is applied. -/
def getOcrJob (jobId : Nat) (db : List OcrJob) : Option OcrJob :=
  db.find? (fun j => j.id == jobId)

/-- `GET /ocr/jobs` (`listOcrJobs`): the filter is built only from the optional
`status` and `docId` query parameters; no org constraint is applied.  Pagination
mirrors the source (`page ≥ 1`, `limit` clamped to `[1,100]`); the `-createdAt`
sort is not modelled (it does not affect membership). -/
def listOcrJobs (status : Option JobStatus) (docId : Option Nat)
    (page limit : Nat) (db : List OcrJob) : List OcrJob :=
  let pageNum := max page 1
  let limitNum := min (max limit 1) 100
  let jobMatch := fun (j : OcrJob) =>
    (match status with | some s => j.status == s | none => true) &&
    (match docId with | some d => j.documentId == d | none => true)
  ((db.filter jobMatch).drop ((pageNum - 1) * limitNum)).take limitNum

/-! ## Case read/update and the access assertion
(`controllers/documentController.js`: `assertCaseAccess`;
case controller: `getCaseById`, `updateCase`) -/

/-- Outcome of `assertCaseAccess(req, caseId)`: pass, or a thrown error with
`statusCode` 403 (`"Forbidden"`) or 404 (`"Case not found"`). -/
inductive AccessOutcome where
  | ok
  | forbidden
  | notFound
deriving DecidableEq, Repr

/-- `assertCaseAccess` from `controllers/documentController.js`:
first `Case.exists({_id: caseId, ...caseScopeFilter(req)})`; on failure,
`Case.exists({_id: caseId, orgId: req.orgId})` decides between 403 and 404. -/
def assertCaseAccess (req : ReqCtx) (caseId : Nat) (db : List Kase) : AccessOutcome :=
  if db.any (fun c => c.id == caseId && caseScopeMatches req c) then
    AccessOutcome.ok
  else if db.any (fun c => c.id == caseId && some c.orgId == req.orgId) then
    AccessOutcome.forbidden
  else
    AccessOutcome.notFound

/-- `GET /cases/:id` (`getCaseById` in the case controller): a single
`Case.findOne({_id: req.params.id, ...caseScopeFilter(req)})`; a miss for any
reason is answered with status 404 `"Case not found"`.  Returns the HTTP
status together with the body. -/
def getCaseById (req : ReqCtx) (caseId : Nat) (db : List Kase) : Nat × Option Kase :=
  match db.find? (fun c => c.id == caseId && caseScopeMatches req c) with
  | some c => (200, some c)
  | none => (404, none)

/-- `PATCH /cases/:id` (`updateCase` in the case controller): a
`Case.findOneAndUpdate({_id: req.params.id, ...caseScopeFilter(req)}, updates)`;
a miss for any reason is answered with status 404 `"Case not found"`.  Only the
resulting HTTP status is modelled (`upd` is the field update applied on a hit). -/
def updateCaseStatus (req : ReqCtx) (caseId : Nat) (_upd : Kase → Kase)
    (db : List Kase) : Nat :=
  match db.find? (fun c => c.id == caseId && caseScopeMatches req c) with
  | some _ => 200
  | none => 404

/-! ## Document model (`models/Document.js`) -/

/-- Document OCR statuses (`ocr.status` enum in `models/Document.js`). -/
inductive DocOcrStatus where
  | pending
  | running
  | completed
  | failed
deriving DecidableEq, Repr

/-- A per-page OCR summary entry, restricted to the fields the Document keeps
(`perPage: [{page, confidence}]`). -/
structure PerPage where
  page : Option Nat := none
  confidence : Option Rat := none
deriving DecidableEq, Repr

/-- Storage metadata (`storage{provider, key, mimeType, sizeBytes, pages, sha256}`). -/
structure Storage where
  provider : String := "local"
  key : Option String := none
  mimeType : Option String := none
  sizeBytes : Option Nat := none
  pages : Option Nat := none
  sha256 : Option String := none
deriving DecidableEq, Repr

/-- Legacy metadata block (`metadata{pages, fileSize, fileType}`). -/
structure Metadata where
  pages : Option Nat := none
  fileSize : Option Nat := none
  fileType : Option String := none
deriving DecidableEq, Repr

/-- The Document's OCR block (`ocr{status, avgConfidence, perPage, textDocId,
needsReview}`).  `avgConfidence = some a` models `typeof avgConfidence === "number"`. -/
structure DocOcr where
  status : DocOcrStatus := DocOcrStatus.pending
  avgConfidence : Option Rat := none
  perPage : List PerPage := []
  textDocId : Option Nat := none
  needsReview : Bool := false
deriving DecidableEq, Repr

/-- A Document record, restricted to the fields the controllers and hooks
read and write. -/
structure Doc where
  id : Nat
  orgId : Nat
  caseId : Nat
  documentType : String := ""
  uploadedBy : Nat := 0
  storage : Storage := {}
  metadata : Metadata := {}
  ocr : DocOcr := {}
  ocrJob : Option Nat := none
deriving DecidableEq, Repr

/-- JavaScript truthiness of an optional number (`!x` is true for both
`undefined` and `0`). -/
def truthyNat (n : Option Nat) : Bool :=
  match n with
  | some k => k != 0
  | none => false

/-- Page-count sync of the `DocumentSchema.pre("save")` hook: copy
`metadata.pages` into `storage.pages` when the latter is falsy and the former
truthy. -/
def syncPagesOnSave (d : Doc) : Doc :=
  if !truthyNat d.storage.pages && truthyNat d.metadata.pages then
    { d with storage := { d.storage with pages := d.metadata.pages } }
  else d

/-- Size sync of the `DocumentSchema.pre("save")` hook: copy
`metadata.fileSize` into `storage.sizeBytes` when the latter is falsy and the
former truthy. -/
def syncSizeOnSave (d : Doc) : Doc :=
  if !truthyNat d.storage.sizeBytes && truthyNat d.metadata.fileSize then
    { d with storage := { d.storage with sizeBytes := d.metadata.fileSize } }
  else d

/-- Second half of the `DocumentSchema.pre("save")` hook: the two metadata
syncs in source order. -/
def storageSyncOnSave (d : Doc) : Doc :=
  syncSizeOnSave (syncPagesOnSave d)

/-- The `DocumentSchema.pre("save")` hook from `models/Document.js`: whenever
`ocr.avgConfidence` is a number, recompute `ocr.needsReview = avgConfidence < 0.85`;
then sync page count and size from `metadata` into `storage` when absent.
Every mongoose `save()` call runs this on the document being saved. -/
def documentPreSave (d : Doc) : Doc :=
  storageSyncOnSave
    (match d.ocr.avgConfidence with
     | some a => { d with ocr := { d.ocr with needsReview := decide (a < 0.85) } }
     | none => d)

/-! ## OCR result pipeline (`controllers/ocrController.js`: `saveOcrResult`) -/

/-- OCR metrics payload (`metrics: {pages, durationMs, garbageRate}`). -/
structure Metrics where
  pages : Option Nat := none
  durationMs : Option Nat := none
  garbageRate : Option Rat := none
deriving DecidableEq, Repr

/-- The request body of `POST /documents/:id/ocr-result`, restricted to the
fields the controller reads.  `avgConfidence = some a` models
`typeof avgConfidence === "number"`. -/
structure OcrResultBody where
  fullText : String := ""
  avgConfidence : Option Rat := none
  perPage : List PerPage := []
  entities : List String := []
  searchHints : List String := []
  metrics : Option Metrics := none
deriving DecidableEq, Repr

/-- DocumentText normalization block (`normalization{version, needsReview,
garbageRate}`; the constant zero script-share block is not modelled). -/
structure Normalization where
  version : String := "v1"
  needsReview : Bool := false
  garbageRate : Rat := 0
deriving DecidableEq, Repr

/-- A DocumentText record (`models/DocumentText.js`), restricted to the fields
the pipeline writes. -/
structure DocumentText where
  tenantId : Option Nat := none
  documentId : Nat
  caseId : Nat
  sectionLabel : String
  fullText : String
  fullText_ne_norm : String
  numbers_ascii : String
  entities : List String := []
  searchHints : List String := []
  qualityAvgConfidence : Option Rat := none
  normalization : Normalization := {}
  pages : List PerPage := []
  textHash : String := ""
deriving DecidableEq, Repr

/-- Characters stripped by `normalizeNepali`: zero-width space, zero-width
non-joiner, zero-width joiner and soft hyphen (U+200B, U+200C, U+200D, U+00AD). -/
def isStrippedControl (c : Char) : Bool :=
  c.toNat == 0x200B || c.toNat == 0x200C || c.toNat == 0x200D || c.toNat == 0xAD

/-- Curly-quote canonicalization from `normalizeNepali`: left/right double
quotes (U+201C/U+201D) become the straight double quote, left/right single
quotes (U+2018/U+2019) become the straight apostrophe (U+0027). -/
def canonQuote (c : Char) : Char :=
  if c.toNat == 0x201C || c.toNat == 0x201D then '"'
  else if c.toNat == 0x2018 || c.toNat == 0x2019 then Char.ofNat 39
  else c

/-- The `normalizeNepali` helper: NFC composition (the external
`String.prototype.normalize` call, passed in as `nfc`), removal of zero-width
and soft-hyphen controls, quote canonicalization, then trim. -/
def normalizeNepali (nfc : String → String) (s : String) : String :=
  (String.map canonQuote ⟨(nfc s).data.filter (fun c => !isStrippedControl c)⟩).trim

/-- The ten Devanagari digits, as in the `DEVANAGARI_DIGITS` constant. -/
def DEVANAGARI_DIGITS : List Char := ['०', '१', '२', '३', '४', '५', '६', '७', '८', '९']

/-- Per-character action of `toAsciiDigits`: the regex class `[०-९]` is the
codepoint range U+0966–U+096F; a digit in the class is replaced by the decimal
rendering of its index in `DEVANAGARI_DIGITS` (an ASCII digit, since the index
is 0–9); every other character is left untouched. -/
def toAsciiDigitChar (c : Char) : Char :=
  if 0x966 ≤ c.toNat ∧ c.toNat ≤ 0x96F then
    Char.ofNat (48 + DEVANAGARI_DIGITS.indexOf c)
  else c

/-- The `toAsciiDigits` helper: global regex replacement of `[०-९]`, i.e. the
per-character map applied to every character of the string. -/
def toAsciiDigits (s : String) : String :=
  String.map toAsciiDigitChar s

/-- The `typeToSection` lookup table (`saveOcrResult` helper): unmapped
document types fall through to `"other"`. -/
def typeToSection (t : String) : String :=
  ((([("POA", "poa"), ("Petition", "petition"), ("Reply", "reply"),
      ("Evidence", "evidence"), ("Interim Order", "order"), ("Testimonial", "other"),
      ("District Judgment", "judgment"), ("High Court Appeal", "appeal"),
      ("High Court Judgment", "judgment"), ("Supreme Court Appeal", "appeal"),
      ("Supreme Court Judgment", "judgment")] : List (String × String)).lookup t)).getD "other"

/-- The DocumentText upsert payload built by `saveOcrResult` (full-replace
semantics).  `nfc` and `hash` stand for the external NFC normalization and
sha256 calls.  The source copies `doc.tenantId` into the record, a field the
org-scoped Document schema does not define, so the stored tenant is absent. -/
def documentTextOf (nfc hash : String → String) (d : Doc) (b : OcrResultBody) :
    DocumentText :=
  let norm := normalizeNepali nfc b.fullText
  { tenantId := none
    documentId := d.id
    caseId := d.caseId
    sectionLabel := typeToSection d.documentType
    fullText := b.fullText
    fullText_ne_norm := norm
    numbers_ascii := toAsciiDigits norm
    entities := b.entities
    searchHints := b.searchHints
    qualityAvgConfidence := b.avgConfidence
    normalization :=
      { version := "v1"
        needsReview := match b.avgConfidence with
          | some a => decide (a < 0.85)
          | none => false
        garbageRate := ((b.metrics.bind fun m => m.garbageRate)).getD 0 }
    pages := b.perPage
    textHash := hash norm }

/-- Step of `saveOcrResult` updating `doc.ocr` from a numeric `avgConfidence`:
set the confidence and recompute `needsReview` together; when the body has no
numeric confidence the block is skipped. -/
def avgConfidenceMerge (a? : Option Rat) (o : DocOcr) : DocOcr :=
  match a? with
  | some a => { o with avgConfidence := some a, needsReview := decide (a < 0.85) }
  | none => o

/-- Step of `saveOcrResult` copying `perPage` onto the document when the body's
array is non-empty. -/
def perPageMerge (pp : List PerPage) (o : DocOcr) : DocOcr :=
  if pp.isEmpty then o else { o with perPage := pp }

/-- Half of the `saveOcrResult` page sync: write a numeric `metrics.pages` into
`storage.pages` when the stored count is falsy. -/
def pagesSyncStorage (p : Nat) (d : Doc) : Doc :=
  if truthyNat d.storage.pages then d
  else { d with storage := { d.storage with pages := some p } }

/-- Half of the `saveOcrResult` page sync: write a numeric `metrics.pages` into
`metadata.pages` when the stored count is falsy. -/
def pagesSyncMetadata (p : Nat) (d : Doc) : Doc :=
  if truthyNat d.metadata.pages then d
  else { d with metadata := { d.metadata with pages := some p } }

/-- Step of `saveOcrResult` syncing a numeric `metrics.pages` into
`storage.pages` and `metadata.pages` when those are falsy; skipped when the
body's metrics carry no numeric page count. -/
def pagesSyncFromMetrics (p? : Option Nat) (d : Doc) : Doc :=
  match p? with
  | some p => pagesSyncMetadata p (pagesSyncStorage p d)
  | none => d

/-- The Document update performed by `saveOcrResult` (lines updating `doc.ocr`
and syncing pages, then `doc.save()`, which runs the pre-save hook): merge a
numeric confidence, copy per-page confidences, sync page counts, set
`ocr.status = "completed"`, and link `ocr.textDocId` to the upserted
DocumentText id. -/
def docAfterSaveOcr (d : Doc) (b : OcrResultBody) (textDocId : Nat) : Doc :=
  let ocr2 := perPageMerge b.perPage (avgConfidenceMerge b.avgConfidence d.ocr)
  let d2 := pagesSyncFromMetrics ((b.metrics.bind fun m => m.pages)) { d with ocr := ocr2 }
  documentPreSave
    { d2 with
      ocr := { d2.ocr with
        status := DocOcrStatus.completed
        textDocId := some textDocId } }

/-- `saveOcrResult` end to end for one document: a missing or empty `fullText`
is rejected with a VALIDATION error (`400`), otherwise the DocumentText is
upserted and the Document updated; `textDocId` is the id of the upserted
DocumentText record. -/
def saveOcrResult (nfc hash : String → String) (d : Doc) (b : OcrResultBody)
    (textDocId : Nat) : Option (Doc × DocumentText) :=
  if b.fullText = "" then none
  else some (docAfterSaveOcr d b textDocId, documentTextOf nfc hash d b)

/-! ## OCR job transitions (`controllers/ocrController.js`) -/

/-- Result of `POST /ocr/jobs/:id/start`: a 409 CONFLICT reporting the current
status when the job is not `queued`, else the started job. -/
inductive StartResult where
  | conflict (current : JobStatus)
  | started (j : OcrJob)
deriving DecidableEq, Repr

/-- `startOcrJob`: only a `queued` job may start; any other state answers
CONFLICT with the current status; on success the job becomes `running` with
`startedAt` stamped. -/
def startOcrJob (now : Nat) (j : OcrJob) : StartResult :=
  if j.status != JobStatus.queued then StartResult.conflict j.status
  else StartResult.started { j with status := JobStatus.running, startedAt := some now }

/-- `failOcrJob`, job part: unconditionally set `failed`, stamp `finishedAt`,
record the error message (defaulted when absent). -/
def failOcrJob (now : Nat) (msg : Option String) (j : OcrJob) : OcrJob :=
  { j with status := JobStatus.failed, finishedAt := some now,
           errorMessage := some (msg.getD "Unknown OCR error") }

/-- `failOcrJob`, document side effect: `Document.updateOne({_id: job.documentId,
"ocr.status": {$ne: "completed"}}, {$set: {"ocr.status": "failed"}})` — the
document is marked failed unless its OCR status is already `completed`. -/
def failOcrDocUpdate (docId : Nat) (d : Doc) : Doc :=
  if d.id == docId && !(d.ocr.status == DocOcrStatus.completed) then
    { d with ocr := { d.ocr with status := DocOcrStatus.failed } }
  else d

/-- Job finalization inside `saveOcrResult` (when a `jobId` was supplied): the
job is set `completed` from whatever state it is in, `finishedAt` stamped and
metrics recorded. -/
def finalizeOcrJob (now : Nat) (metrics : Option Metrics) (j : OcrJob) : OcrJob :=
  { j with status := JobStatus.completed
           finishedAt := some now
           metricsPages := (metrics.bind fun m => m.pages)
           metricsDurationMs := (metrics.bind fun m => m.durationMs)
           metricsGarbageRate := (metrics.bind fun m => m.garbageRate) }

/-! ## Document upload (`controllers/documentController.js`: `uploadDocument`) -/

/-- The Document payload built by `uploadDocument` before `Document.create`:
local storage with the computed content hash, metadata mirror, and
`ocr: {status: "pending", needsReview: false}`. -/
def uploadPayload (orgId caseId : Nat) (documentType : String) (uploadedBy : Nat)
    (key mimeType : String) (sizeBytes : Nat) (sha256 : String) (newId : Nat) : Doc :=
  { id := newId
    orgId := orgId
    caseId := caseId
    documentType := documentType
    uploadedBy := uploadedBy
    storage := { provider := "local", key := some key, mimeType := some mimeType,
                 sizeBytes := some sizeBytes, sha256 := some sha256 }
    metadata := { fileSize := some sizeBytes, fileType := some mimeType }
    ocr := { status := DocOcrStatus.pending, needsReview := false } }

/-- Violation check of the unique sparse index `{orgId: 1, "storage.sha256": 1}`
declared in `models/Document.js`: an insert collides exactly when some stored
document of the same org carries the same present sha256. -/
def sha256Dup (db : List Doc) (d : Doc) : Bool :=
  db.any fun e => e.orgId == d.orgId && e.storage.sha256.isSome
    && e.storage.sha256 == d.storage.sha256

/-- `Document.create` against the unique index: the insert is refused (MongoDB
error code 11000) on a duplicate `(orgId, sha256)` pair, else the document is
saved (running the pre-save hook) and added to the collection. -/
def documentCreate (db : List Doc) (d : Doc) : Option (Doc × List Doc) :=
  if sha256Dup db d then none
  else some (documentPreSave d, documentPreSave d :: db)

/-- HTTP status of the upload's create step: the controller's catch maps the
11000 duplicate-key error to `409 "Duplicate document (same file hash)"`;
success continues to the `201` response. -/
def uploadCreateStatus (db : List Doc) (d : Doc) : Nat :=
  match documentCreate db d with
  | none => 409
  | some _ => 201

/-- Tail of `uploadDocument` after the Document is created: `OcrJob.create` is
wrapped in `try { ... } catch (_) { }`, so a throwing job creation is swallowed
— the response is `201` either way, with `ocrJobId` null and the document left
without a linked job when creation failed. -/
def uploadFinish (d : Doc) (job : Option OcrJob) : Nat × Doc × Option Nat :=
  match job with
  | some j => (201, documentPreSave { d with ocrJob := some j.id }, some j.id)
  | none => (201, d, none)

/-- Helper: the page-sync half of the pre-save hook never touches the `ocr`
block, the `ocrJob` link, the `orgId`, or the stored hash. -/
theorem syncPagesOnSave_frame (d : Doc) :
    (syncPagesOnSave d).ocr = d.ocr
    ∧ (syncPagesOnSave d).ocrJob = d.ocrJob
    ∧ (syncPagesOnSave d).orgId = d.orgId
    ∧ (syncPagesOnSave d).storage.sha256 = d.storage.sha256 := by
  unfold syncPagesOnSave
  split <;> exact ⟨rfl, rfl, rfl, rfl⟩

/-- Helper: the size-sync half of the pre-save hook never touches the `ocr`
block, the `ocrJob` link, the `orgId`, or the stored hash. -/
theorem syncSizeOnSave_frame (d : Doc) :
    (syncSizeOnSave d).ocr = d.ocr
    ∧ (syncSizeOnSave d).ocrJob = d.ocrJob
    ∧ (syncSizeOnSave d).orgId = d.orgId
    ∧ (syncSizeOnSave d).storage.sha256 = d.storage.sha256 := by
  unfold syncSizeOnSave
  split <;> exact ⟨rfl, rfl, rfl, rfl⟩

/-- Helper: the storage-sync half of the pre-save hook never touches the `ocr`
block, the `ocrJob` link, the `orgId`, or the stored hash. -/
theorem storageSyncOnSave_frame (d : Doc) :
    (storageSyncOnSave d).ocr = d.ocr
    ∧ (storageSyncOnSave d).ocrJob = d.ocrJob
    ∧ (storageSyncOnSave d).orgId = d.orgId
    ∧ (storageSyncOnSave d).storage.sha256 = d.storage.sha256 := by
  unfold storageSyncOnSave
  obtain ⟨p1, p2, p3, p4⟩ := syncPagesOnSave_frame d
  obtain ⟨s1, s2, s3, s4⟩ := syncSizeOnSave_frame (syncPagesOnSave d)
  exact ⟨s1.trans p1, s2.trans p2, s3.trans p3, s4.trans p4⟩

/-- Helper: the pre-save hook never changes `ocr.avgConfidence`, `ocr.status`,
`ocr.textDocId`, the `ocrJob` link, the `orgId`, or the stored hash. -/
theorem documentPreSave_frame (d : Doc) :
    (documentPreSave d).ocr.avgConfidence = d.ocr.avgConfidence
    ∧ (documentPreSave d).ocr.status = d.ocr.status
    ∧ (documentPreSave d).ocr.textDocId = d.ocr.textDocId
    ∧ (documentPreSave d).ocrJob = d.ocrJob
    ∧ (documentPreSave d).orgId = d.orgId
    ∧ (documentPreSave d).storage.sha256 = d.storage.sha256 := by
  unfold documentPreSave
  obtain ⟨h1, h2, h3, h4⟩ := storageSyncOnSave_frame
    (match d.ocr.avgConfidence with
     | some a => { d with ocr := { d.ocr with needsReview := decide (a < 0.85) } }
     | none => d)
  rw [h1, h2, h3, h4]
  cases h : d.ocr.avgConfidence <;> exact ⟨h, rfl, rfl, rfl, rfl, rfl⟩

/-- Helper: with a numeric `avgConfidence` the hook recomputes `needsReview`. -/
theorem documentPreSave_review_some (d : Doc) (a : Rat)
    (h : d.ocr.avgConfidence = some a) :
    (documentPreSave d).ocr.needsReview = decide (a < 0.85) := by
  unfold documentPreSave
  rw [(storageSyncOnSave_frame _).1, h]

/-- Helper: with no numeric `avgConfidence` the hook leaves `needsReview` alone. -/
theorem documentPreSave_review_none (d : Doc)
    (h : d.ocr.avgConfidence = none) :
    (documentPreSave d).ocr.needsReview = d.ocr.needsReview := by
  unfold documentPreSave
  rw [(storageSyncOnSave_frame _).1, h]

/-- Helper: the storage half of the metrics page sync never touches `ocr`. -/
theorem pagesSyncStorage_ocr (p : Nat) (d : Doc) :
    (pagesSyncStorage p d).ocr = d.ocr := by
  unfold pagesSyncStorage
  split <;> rfl

/-- Helper: the metadata half of the metrics page sync never touches `ocr`. -/
theorem pagesSyncMetadata_ocr (p : Nat) (d : Doc) :
    (pagesSyncMetadata p d).ocr = d.ocr := by
  unfold pagesSyncMetadata
  split <;> rfl

/-- Helper: the metrics page-sync step never touches the `ocr` block. -/
theorem pagesSyncFromMetrics_ocr (p? : Option Nat) (d : Doc) :
    (pagesSyncFromMetrics p? d).ocr = d.ocr := by
  unfold pagesSyncFromMetrics
  cases p? with
  | none => rfl
  | some p => rw [pagesSyncMetadata_ocr, pagesSyncStorage_ocr]

/-- Helper: merging the per-page array never changes `avgConfidence`. -/
theorem perPageMerge_avgConfidence (pp : List PerPage) (o : DocOcr) :
    (perPageMerge pp o).avgConfidence = o.avgConfidence := by
  unfold perPageMerge
  split <;> rfl

/-- Helper: merging the per-page array never changes `needsReview`. -/
theorem perPageMerge_needsReview (pp : List PerPage) (o : DocOcr) :
    (perPageMerge pp o).needsReview = o.needsReview := by
  unfold perPageMerge
  split <;> rfl

/-- Helper: the action of the pre-save hook on the `ocr` block alone: the
recomputation of `needsReview` when `avgConfidence` is numeric, and nothing
else. -/
theorem documentPreSave_ocr (d : Doc) :
    (documentPreSave d).ocr =
      (match d.ocr.avgConfidence with
       | some a => { d.ocr with needsReview := decide (a < 0.85) }
       | none => d.ocr) := by
  unfold documentPreSave
  obtain ⟨h1, _, _, _⟩ := storageSyncOnSave_frame
    (match d.ocr.avgConfidence with
     | some a => { d with ocr := { d.ocr with needsReview := decide (a < 0.85) } }
     | none => d)
  rw [h1]
  cases d.ocr.avgConfidence <;> rfl

/-- Helper: the definitional unfolding of `docAfterSaveOcr` with its
intermediate lets expanded. -/
theorem docAfterSaveOcr_eq (d : Doc) (b : OcrResultBody) (tid : Nat) :
    docAfterSaveOcr d b tid = documentPreSave
      { pagesSyncFromMetrics ((b.metrics.bind fun m => m.pages))
          { d with ocr := perPageMerge b.perPage (avgConfidenceMerge b.avgConfidence d.ocr) } with
        ocr := { (pagesSyncFromMetrics ((b.metrics.bind fun m => m.pages))
            { d with ocr := perPageMerge b.perPage (avgConfidenceMerge b.avgConfidence d.ocr) }).ocr with
          status := DocOcrStatus.completed
          textDocId := some tid } } := rfl

/-- Helper: the document saved by `saveOcrResult` carries the body's
confidence when numeric, the previous one otherwise. -/
theorem docAfterSaveOcr_avgConfidence (d : Doc) (b : OcrResultBody) (tid : Nat) :
    (docAfterSaveOcr d b tid).ocr.avgConfidence
      = (avgConfidenceMerge b.avgConfidence d.ocr).avgConfidence := by
  rw [docAfterSaveOcr_eq, (documentPreSave_frame _).1]
  dsimp only
  rw [pagesSyncFromMetrics_ocr]
  dsimp only
  rw [perPageMerge_avgConfidence]

/-- Helper: the document saved by `saveOcrResult` always ends with OCR status
`completed`. -/
theorem docAfterSaveOcr_status (d : Doc) (b : OcrResultBody) (tid : Nat) :
    (docAfterSaveOcr d b tid).ocr.status = DocOcrStatus.completed := by
  rw [docAfterSaveOcr_eq, (documentPreSave_frame _).2.1]

/-- Helper: the document saved by `saveOcrResult` links the upserted
DocumentText id. -/
theorem docAfterSaveOcr_textDocId (d : Doc) (b : OcrResultBody) (tid : Nat) :
    (docAfterSaveOcr d b tid).ocr.textDocId = some tid := by
  rw [docAfterSaveOcr_eq, (documentPreSave_frame _).2.2.1]

/-- Helper: the scope filter for an Admin scoped to org `o` matches exactly the
cases of org `o`. -/
theorem scope_admin_iff (o uid : Nat) (c : Kase) :
    caseScopeMatches (subjectReq o ⟨uid, Role.Admin⟩) c = true ↔ c.orgId = o := by
  simp [caseScopeMatches, subjectReq]

/-- Helper: the scope filter for a Lawyer scoped to org `o` matches exactly the
cases of org `o` that the lawyer is related to. -/
theorem scope_lawyer_iff (o uid : Nat) (c : Kase) :
    caseScopeMatches (subjectReq o ⟨uid, Role.Lawyer⟩) c = true ↔
      (c.orgId = o ∧ lawyerRelated uid c = true) := by
  simp [caseScopeMatches, subjectReq, lawyerRelated]

end LegalTech

open LegalTech

/-- C1: for a subject scoped to their org, the case-scope filter grants access
exactly per policy: an Admin matches a case iff the case's orgId equals the
subject's orgId; a Lawyer matches iff additionally they are assigned, a party's
lawyer, or the creator; a request with no authenticated user matches nothing. -/
theorem C1_case_scope_policy (o uid : Nat) (c : Kase) :
    (caseScopeMatches (subjectReq o ⟨uid, Role.Admin⟩) c = true ↔ c.orgId = o)
    ∧ (caseScopeMatches (subjectReq o ⟨uid, Role.Lawyer⟩) c = true ↔
        (c.orgId = o ∧ lawyerRelated uid c = true))
    ∧ caseScopeMatches { orgId := some o, user := none } c = false := by
  exact ⟨scope_admin_iff o uid c, scope_lawyer_iff o uid c, rfl⟩

/-- C2: the claim fails on the code, which the spec itself calls a defect: the
single-job and list OCR-job reads apply no org filter at all (`findById`, and a
filter built only from `status`/`docId`).  Evaluated at a concrete input: a
caller scoped to org 1 issues the unscoped list and get queries against a
database holding one job of org 2, and receives that cross-org job. -/
theorem C2_ocr_job_reads_unscoped :
    listOcrJobs none none 1 20 [{ id := 1, orgId := some 2, documentId := 5 }]
        = [{ id := 1, orgId := some 2, documentId := 5 }]
    ∧ getOcrJob 1 [{ id := 1, orgId := some 2, documentId := 5 }]
        = some { id := 1, orgId := some 2, documentId := 5 }
    ∧ ({ id := 1, orgId := some 2, documentId := 5 } : OcrJob).orgId ≠ some 1 := by
  refine ⟨rfl, rfl, by decide⟩

/-- C3 counterexample: a Lawyer of org 1 with no relation to case 1 (created by
user 99, no assignment, no party) reads and updates the case: both return
status 404 (NOT_FOUND), not the claimed FORBIDDEN, even though the case exists
in the caller's org and only the Lawyer access predicate fails. -/
theorem C3_case_read_update_returns_404_counterexample :
    (getCaseById (subjectReq 1 ⟨1, Role.Lawyer⟩) 1
        [{ id := 1, orgId := 1, createdBy := some 99 }]).1 = 404
    ∧ updateCaseStatus (subjectReq 1 ⟨1, Role.Lawyer⟩) 1 id
        [{ id := 1, orgId := 1, createdBy := some 99 }] = 404
    ∧ ({ id := 1, orgId := 1, createdBy := some 99 } : Kase).orgId = 1
    ∧ lawyerRelated 1 { id := 1, orgId := 1, createdBy := some 99 } = false := by
  refine ⟨rfl, rfl, rfl, by decide⟩

/-- C3 amended: the FORBIDDEN/NOT_FOUND distinction is made by
`assertCaseAccess`, which guards the document-level operations (not the case
read/update themselves, which answer 404 in both situations): for a Lawyer
caller scoped to org `o` with no access relation to any case named `cid` in
their org, the assertion yields FORBIDDEN exactly when a case with id `cid`
exists in org `o`, and NOT_FOUND exactly when none does; the two outcomes are
distinct. -/
theorem C3_assert_case_access_forbidden_vs_not_found (o uid cid : Nat) (db : List Kase)
    (h1 : ∀ c ∈ db, c.id = cid → c.orgId = o → lawyerRelated uid c = false) :
    (assertCaseAccess (subjectReq o ⟨uid, Role.Lawyer⟩) cid db = AccessOutcome.forbidden
        ↔ ∃ c ∈ db, c.id = cid ∧ c.orgId = o)
    ∧ (assertCaseAccess (subjectReq o ⟨uid, Role.Lawyer⟩) cid db = AccessOutcome.notFound
        ↔ ¬ ∃ c ∈ db, c.id = cid ∧ c.orgId = o)
    ∧ AccessOutcome.forbidden ≠ AccessOutcome.notFound := by
  have hscope :
      (db.any fun c => c.id == cid
          && caseScopeMatches (subjectReq o ⟨uid, Role.Lawyer⟩) c) = false := by
    rw [List.any_eq_false]
    intro c hc
    simp only [Bool.and_eq_true, beq_iff_eq, not_and]
    intro hid hmatch
    obtain ⟨horg, hrel⟩ := (scope_lawyer_iff o uid c).mp hmatch
    rw [h1 c hc hid horg] at hrel
    exact Bool.false_ne_true hrel
  have hsecond :
      (db.any fun c => c.id == cid && (some c.orgId == (subjectReq o ⟨uid, Role.Lawyer⟩).orgId))
        = true ↔ ∃ c ∈ db, c.id = cid ∧ c.orgId = o := by
    simp [List.any_eq_true, subjectReq]
  have hval : assertCaseAccess (subjectReq o ⟨uid, Role.Lawyer⟩) cid db
      = if (db.any fun c => c.id == cid
            && (some c.orgId == (subjectReq o ⟨uid, Role.Lawyer⟩).orgId)) = true
        then AccessOutcome.forbidden else AccessOutcome.notFound := by
    rw [assertCaseAccess, if_neg (by simp [hscope])]
  cases hany : (db.any fun c => c.id == cid
      && (some c.orgId == (subjectReq o ⟨uid, Role.Lawyer⟩).orgId)) with
  | false =>
      rw [hany] at hval
      simp only [Bool.false_eq_true, if_false] at hval
      rw [hval]
      have hnex : ¬ ∃ c ∈ db, c.id = cid ∧ c.orgId = o := fun h =>
        Bool.false_ne_true (hany ▸ hsecond.mpr h)
      exact ⟨⟨fun h => absurd h (by decide), fun h => absurd h hnex⟩,
        ⟨fun _ => hnex, fun _ => rfl⟩, by decide⟩
  | true =>
      rw [hany] at hval
      simp only [if_true] at hval
      rw [hval]
      exact ⟨⟨fun _ => hsecond.mp hany, fun _ => rfl⟩,
        ⟨fun h => absurd h (by decide), fun h => absurd (hsecond.mp hany) h⟩, by decide⟩

/-- C3 witness: the amended theorem applied at the counterexample org/lawyer
and a one-case database. -/
theorem C3_assert_case_access_witness :
    (assertCaseAccess (subjectReq 1 ⟨1, Role.Lawyer⟩) 1
        [{ id := 1, orgId := 1, createdBy := some 99 }] = AccessOutcome.forbidden
        ↔ ∃ c ∈ [({ id := 1, orgId := 1, createdBy := some 99 } : Kase)],
            c.id = 1 ∧ c.orgId = 1)
    ∧ (assertCaseAccess (subjectReq 1 ⟨1, Role.Lawyer⟩) 1
        [{ id := 1, orgId := 1, createdBy := some 99 }] = AccessOutcome.notFound
        ↔ ¬ ∃ c ∈ [({ id := 1, orgId := 1, createdBy := some 99 } : Kase)],
            c.id = 1 ∧ c.orgId = 1)
    ∧ AccessOutcome.forbidden ≠ AccessOutcome.notFound :=
  C3_assert_case_access_forbidden_vs_not_found 1 1 1
    [{ id := 1, orgId := 1, createdBy := some 99 }] (by decide)

/-- C4: needsReview is derived from avgConfidence at every write that sets it:
the pre-save hook (run by every mongoose save) recomputes
`needsReview = avgConfidence < 0.85` whenever the confidence is numeric while
never changing the confidence itself, and the OCR result pipeline — the one
write path that sets `avgConfidence` — ends in such a save, so the saved
document satisfies `needsReview = (avgConfidence < 0.85)`. -/
theorem C4_needs_review_derived :
    (∀ (d : Doc) (a : Rat), d.ocr.avgConfidence = some a →
      (documentPreSave d).ocr.avgConfidence = some a
      ∧ (documentPreSave d).ocr.needsReview = decide (a < 0.85))
    ∧ (∀ (d : Doc) (b : OcrResultBody) (tid : Nat) (a : Rat),
        b.avgConfidence = some a →
        (docAfterSaveOcr d b tid).ocr.avgConfidence = some a
        ∧ (docAfterSaveOcr d b tid).ocr.needsReview = decide (a < 0.85)) := by
  constructor
  · intro d a h
    exact ⟨(documentPreSave_frame d).1.trans h, documentPreSave_review_some d a h⟩
  · intro d b tid a h
    constructor
    · rw [docAfterSaveOcr_avgConfidence, h]
      rfl
    · rw [docAfterSaveOcr_eq]
      apply documentPreSave_review_some
      dsimp only
      rw [pagesSyncFromMetrics_ocr]
      dsimp only
      rw [perPageMerge_avgConfidence, h]
      rfl

/-- C4 witness: the hook and the pipeline applied at concrete documents with
numeric confidences 9/10 and 1/2. -/
theorem C4_needs_review_witness :
    ((documentPreSave { id := 1, orgId := 1, caseId := 1, ocr := { avgConfidence := some (9/10 : Rat) } }).ocr.avgConfidence
          = some (9/10 : Rat)
      ∧ (documentPreSave { id := 1, orgId := 1, caseId := 1, ocr := { avgConfidence := some (9/10 : Rat) } }).ocr.needsReview
          = decide ((9/10 : Rat) < 0.85))
    ∧ ((docAfterSaveOcr { id := 1, orgId := 1, caseId := 1 }
          { fullText := "x", avgConfidence := some (1/2 : Rat) } 3).ocr.avgConfidence
          = some (1/2 : Rat)
      ∧ (docAfterSaveOcr { id := 1, orgId := 1, caseId := 1 }
          { fullText := "x", avgConfidence := some (1/2 : Rat) } 3).ocr.needsReview
          = decide ((1/2 : Rat) < 0.85)) :=
  ⟨C4_needs_review_derived.1 _ (9/10 : Rat) rfl,
   C4_needs_review_derived.2 _ _ 3 (1/2 : Rat) rfl⟩

/-- C5 counterexample: `failOcrJob` is applied to a job whose status is
`completed` and moves it to `failed` — a transition out of `completed`,
contrary to the claimed state machine. -/
theorem C5_fail_leaves_completed_counterexample :
    (failOcrJob 0 none { id := 1, documentId := 7, status := JobStatus.completed }).status
      = JobStatus.failed
    ∧ JobStatus.failed ≠ JobStatus.completed :=
  ⟨rfl, by decide⟩

/-- C5 amended: `fail` is permitted from any state — including `completed` —
and always sets the job's status to `failed`; apart from `fail`, no operation
leaves `completed`: `start` answers CONFLICT (reporting the current status)
for every non-queued job, and the `saveResult` finalization always sets
`completed` (a no-op on an already completed job).  Only the parent Document's
completed OCR status is protected from `fail` (C6). -/
theorem C5_job_transitions_amended :
    (∀ (now : Nat) (msg : Option String) (j : OcrJob),
        (failOcrJob now msg j).status = JobStatus.failed)
    ∧ (∀ (now : Nat) (j : OcrJob), j.status ≠ JobStatus.queued →
        startOcrJob now j = StartResult.conflict j.status)
    ∧ (∀ (now : Nat) (m : Option Metrics) (j : OcrJob),
        (finalizeOcrJob now m j).status = JobStatus.completed) := by
  refine ⟨fun _ _ _ => rfl, ?_, fun _ _ _ => rfl⟩
  intro now j hq
  unfold startOcrJob
  rw [if_pos]
  simp [bne_iff_ne, hq]

/-- C5 witness: the amended transitions applied at concrete jobs, in
particular `start` rejected on a completed job. -/
theorem C5_job_transitions_witness :
    (failOcrJob 0 none { id := 1, documentId := 7 }).status = JobStatus.failed
    ∧ startOcrJob 0 { id := 1, documentId := 7, status := JobStatus.completed }
        = StartResult.conflict JobStatus.completed
    ∧ (finalizeOcrJob 0 none { id := 1, documentId := 7 }).status
        = JobStatus.completed :=
  ⟨C5_job_transitions_amended.1 0 none _,
   C5_job_transitions_amended.2.1 0
     { id := 1, documentId := 7, status := JobStatus.completed } (by decide),
   C5_job_transitions_amended.2.2 0 none _⟩

/-- C6: the document side effect of `fail` — an update filtered on
`ocr.status ≠ completed` — leaves a completed parent Document entirely
unchanged, and in every other case marks the parent Document's OCR failed. -/
theorem C6_fail_never_regresses_completed_document (j : OcrJob) (d : Doc)
    (hid : d.id = j.documentId) :
    (d.ocr.status = DocOcrStatus.completed → failOcrDocUpdate j.documentId d = d)
    ∧ (d.ocr.status ≠ DocOcrStatus.completed →
        (failOcrDocUpdate j.documentId d).ocr.status = DocOcrStatus.failed) := by
  constructor
  · intro hc
    unfold failOcrDocUpdate
    rw [hc]
    simp
  · intro hc
    unfold failOcrDocUpdate
    rw [if_pos]
    simp [hid, hc]

/-- C6 witness: the document update applied to a completed document (left
unchanged) — the same theorem also covers the non-completed case. -/
theorem C6_fail_completed_witness :
    failOcrDocUpdate 7 { id := 7, orgId := 1, caseId := 1, ocr := { status := DocOcrStatus.completed } }
      = { id := 7, orgId := 1, caseId := 1, ocr := { status := DocOcrStatus.completed } } :=
  (C6_fail_never_regresses_completed_document { id := 1, documentId := 7 }
    { id := 7, orgId := 1, caseId := 1, ocr := { status := DocOcrStatus.completed } }
    rfl).1 rfl

/-- C7: the digit transliteration maps each of the ten Devanagari digits ०–९
to the corresponding ASCII digit, leaves every character outside the
U+0966–U+096F class untouched, and the DocumentText built by `saveOcrResult`
stores exactly the transliteration of its own normalized text as
`numbers_ascii`. -/
theorem C7_devanagari_digit_transliteration :
    (toAsciiDigitChar '०' = '0' ∧ toAsciiDigitChar '१' = '1'
      ∧ toAsciiDigitChar '२' = '2' ∧ toAsciiDigitChar '३' = '3'
      ∧ toAsciiDigitChar '४' = '4' ∧ toAsciiDigitChar '५' = '5'
      ∧ toAsciiDigitChar '६' = '6' ∧ toAsciiDigitChar '७' = '7'
      ∧ toAsciiDigitChar '८' = '8' ∧ toAsciiDigitChar '९' = '9')
    ∧ (∀ c : Char, ¬(0x966 ≤ c.toNat ∧ c.toNat ≤ 0x96F) → toAsciiDigitChar c = c)
    ∧ (∀ (nfc hash : String → String) (d : Doc) (b : OcrResultBody),
        (documentTextOf nfc hash d b).numbers_ascii
          = toAsciiDigits ((documentTextOf nfc hash d b).fullText_ne_norm)) := by
  refine ⟨by decide, ?_, ?_⟩
  · intro c hc
    unfold toAsciiDigitChar
    rw [if_neg hc]
  · intro nfc hash d b
    rfl

/-- C7 witness: a Devanagari letter (क, U+0915) is outside the digit class and
passes through unchanged. -/
theorem C7_devanagari_letter_witness :
    ¬(0x966 ≤ ('क' : Char).toNat ∧ ('क' : Char).toNat ≤ 0x96F)
    ∧ toAsciiDigitChar 'क' = 'क' :=
  ⟨by decide, C7_devanagari_digit_transliteration.2.1 'क' (by decide)⟩

/-- C8: content dedup is per org: with the unique sparse index on
`(orgId, storage.sha256)`, a first upload with a fresh hash succeeds (201), a
second upload of the same hash into the same org is rejected with CONFLICT
(409, "Duplicate document (same file hash)"), and the same hash into a
different org succeeds (201). -/
theorem C8_sha256_dedup_per_org (db : List Doc) (p1 p2 : Doc) (h : String)
    (h1 : p1.storage.sha256 = some h) (h2 : p2.storage.sha256 = some h)
    (hno : sha256Dup db p1 = false) :
    uploadCreateStatus db p1 = 201
    ∧ (p2.orgId = p1.orgId → uploadCreateStatus (documentPreSave p1 :: db) p2 = 409)
    ∧ (p2.orgId ≠ p1.orgId → sha256Dup db p2 = false →
        uploadCreateStatus (documentPreSave p1 :: db) p2 = 201) := by
  have hsha : (documentPreSave p1).storage.sha256 = some h :=
    ((documentPreSave_frame p1).2.2.2.2.2).trans h1
  have horg1 : (documentPreSave p1).orgId = p1.orgId :=
    (documentPreSave_frame p1).2.2.2.2.1
  refine ⟨?_, ?_, ?_⟩
  · simp [uploadCreateStatus, documentCreate, hno]
  · intro horg
    have hdup : sha256Dup (documentPreSave p1 :: db) p2 = true := by
      simp only [sha256Dup, List.any_cons, horg1, horg, hsha, h2]
      simp
    simp [uploadCreateStatus, documentCreate, hdup]
  · intro hne hno2
    have hdup : sha256Dup (documentPreSave p1 :: db) p2 = false := by
      unfold sha256Dup
      rw [List.any_cons]
      apply Bool.or_eq_false_iff.mpr
      constructor
      · rw [horg1]
        simp [beq_eq_false_iff_ne, Ne.symm hne]
      · exact hno2
    simp [uploadCreateStatus, documentCreate, hdup]

/-- C8 witness: two uploads of hash "h" into org 1 — the first succeeds, the
second is a 409 CONFLICT. -/
theorem C8_sha256_dedup_witness :
    uploadCreateStatus [] { id := 1, orgId := 1, caseId := 1, storage := { sha256 := some "h" } } = 201
    ∧ (({ id := 2, orgId := 1, caseId := 1, storage := { sha256 := some "h" } } : Doc).orgId
          = ({ id := 1, orgId := 1, caseId := 1, storage := { sha256 := some "h" } } : Doc).orgId →
        uploadCreateStatus
          (documentPreSave { id := 1, orgId := 1, caseId := 1, storage := { sha256 := some "h" } } :: [])
          { id := 2, orgId := 1, caseId := 1, storage := { sha256 := some "h" } } = 409)
    ∧ (({ id := 2, orgId := 1, caseId := 1, storage := { sha256 := some "h" } } : Doc).orgId
          ≠ ({ id := 1, orgId := 1, caseId := 1, storage := { sha256 := some "h" } } : Doc).orgId →
        sha256Dup [] { id := 2, orgId := 1, caseId := 1, storage := { sha256 := some "h" } } = false →
        uploadCreateStatus
          (documentPreSave { id := 1, orgId := 1, caseId := 1, storage := { sha256 := some "h" } } :: [])
          { id := 2, orgId := 1, caseId := 1, storage := { sha256 := some "h" } } = 201) :=
  C8_sha256_dedup_per_org [] _ _ "h" rfl rfl rfl

/-- C9: when the `OcrJob.create` inside `uploadDocument`'s try/catch throws,
the failure is swallowed: the upload still answers 201 with the created
Document (whose `ocr.status` is `pending`) and a null `ocrJobId`, and the
Document carries no linked job. -/
theorem C9_upload_swallows_job_creation_failure
    (orgId caseId uploadedBy sizeBytes newId : Nat) (documentType key mimeType sha : String) :
    uploadFinish (documentPreSave (uploadPayload orgId caseId documentType uploadedBy key mimeType sizeBytes sha newId)) none
      = (201, documentPreSave (uploadPayload orgId caseId documentType uploadedBy key mimeType sizeBytes sha newId), none)
    ∧ (documentPreSave (uploadPayload orgId caseId documentType uploadedBy key mimeType sizeBytes sha newId)).ocr.status
        = DocOcrStatus.pending
    ∧ (documentPreSave (uploadPayload orgId caseId documentType uploadedBy key mimeType sizeBytes sha newId)).ocrJob
        = none := by
  refine ⟨rfl, ?_, ?_⟩
  · exact ((documentPreSave_frame _).2.1).trans rfl
  · exact ((documentPreSave_frame _).2.2.2.1).trans rfl

/-- C10: a `saveResult` call whose body has no numeric `avgConfidence` leaves
the Document's `ocr.avgConfidence` and `ocr.needsReview` unchanged (on any
document satisfying the C4 invariant between the two fields), still sets
`ocr.status = completed` and links `ocr.textDocId`, and the upserted
DocumentText gets `normalization.needsReview = false`. -/
theorem C10_save_result_without_numeric_confidence (nfc hash : String → String)
    (d : Doc) (b : OcrResultBody) (tid : Nat)
    (hfull : ¬ b.fullText = "")
    (hnone : b.avgConfidence = none)
    (hinv : ∀ a : Rat, d.ocr.avgConfidence = some a →
      d.ocr.needsReview = decide (a < 0.85)) :
    saveOcrResult nfc hash d b tid
        = some (docAfterSaveOcr d b tid, documentTextOf nfc hash d b)
    ∧ (docAfterSaveOcr d b tid).ocr.avgConfidence = d.ocr.avgConfidence
    ∧ (docAfterSaveOcr d b tid).ocr.needsReview = d.ocr.needsReview
    ∧ (docAfterSaveOcr d b tid).ocr.status = DocOcrStatus.completed
    ∧ (docAfterSaveOcr d b tid).ocr.textDocId = some tid
    ∧ (documentTextOf nfc hash d b).normalization.needsReview = false := by
  refine ⟨?_, ?_, ?_, docAfterSaveOcr_status d b tid, docAfterSaveOcr_textDocId d b tid, ?_⟩
  · unfold saveOcrResult
    rw [if_neg hfull]
  · rw [docAfterSaveOcr_avgConfidence, hnone]
    rfl
  · cases ha : d.ocr.avgConfidence with
    | some a =>
        rw [hinv a ha, docAfterSaveOcr_eq]
        apply documentPreSave_review_some
        dsimp only
        rw [pagesSyncFromMetrics_ocr]
        dsimp only
        rw [perPageMerge_avgConfidence, hnone]
        exact ha
    | none =>
        rw [docAfterSaveOcr_eq, documentPreSave_review_none]
        · dsimp only
          rw [pagesSyncFromMetrics_ocr]
          dsimp only
          rw [perPageMerge_needsReview, hnone]
          rfl
        · dsimp only
          rw [pagesSyncFromMetrics_ocr]
          dsimp only
          rw [perPageMerge_avgConfidence, hnone]
          exact ha
  · simp [documentTextOf, hnone]

/-- C10 witness: a result body with text but no confidence, saved over a
fresh pending document. -/
theorem C10_save_result_witness :
    saveOcrResult (fun s => s) (fun s => s)
        { id := 1, orgId := 1, caseId := 1 } { fullText := "x" } 3
        = some (docAfterSaveOcr { id := 1, orgId := 1, caseId := 1 } { fullText := "x" } 3,
            documentTextOf (fun s => s) (fun s => s)
              { id := 1, orgId := 1, caseId := 1 } { fullText := "x" })
    ∧ (docAfterSaveOcr { id := 1, orgId := 1, caseId := 1 } { fullText := "x" } 3).ocr.avgConfidence
        = ({ id := 1, orgId := 1, caseId := 1 } : Doc).ocr.avgConfidence
    ∧ (docAfterSaveOcr { id := 1, orgId := 1, caseId := 1 } { fullText := "x" } 3).ocr.needsReview
        = ({ id := 1, orgId := 1, caseId := 1 } : Doc).ocr.needsReview
    ∧ (docAfterSaveOcr { id := 1, orgId := 1, caseId := 1 } { fullText := "x" } 3).ocr.status
        = DocOcrStatus.completed
    ∧ (docAfterSaveOcr { id := 1, orgId := 1, caseId := 1 } { fullText := "x" } 3).ocr.textDocId
        = some 3
    ∧ (documentTextOf (fun s => s) (fun s => s)
        { id := 1, orgId := 1, caseId := 1 } { fullText := "x" }).normalization.needsReview
        = false :=
  C10_save_result_without_numeric_confidence (fun s => s) (fun s => s)
    { id := 1, orgId := 1, caseId := 1 } { fullText := "x" } 3
    (by decide) rfl (fun a h => Option.noConfusion h)
